import Mathlib

/-!
Verification of the cron-expression translator (`traductor_cron.py`).

The Python source is shallowly embedded: field parsing (`_parse_field`) and
expression translation (`translate`) become Lean functions over `String`,
with Python runtime errors (`ValueError` from `int(...)` / unpacking,
`IndexError` from list indexing) made explicit as an `Except` error channel.
The external scheduling collaborator (croniter) is abstracted as a function
parameter; where its behaviour is needed it is modelled from the spec.
-/

namespace TraductorCron

/-- `CronTranslator._MONTH_NAMES`: zero-indexed Spanish month names. -/
def MONTH_NAMES : List String :=
  ["enero", "febrero", "marzo", "abril", "mayo", "junio",
   "julio", "agosto", "septiembre", "octubre", "noviembre", "diciembre"]

/-- `CronTranslator._DAY_NAMES`: zero-indexed Spanish weekday names. -/
def DAY_NAMES : List String :=
  ["domingo", "lunes", "martes", "miércoles",
   "jueves", "viernes", "sábado"]

/-- Python runtime errors reachable from the translator's field parsing. -/
inductive PyError where
  | valueError (msg : String)
  | indexError
deriving DecidableEq, Repr

/-- Python's `c in value` membership test for a single character. -/
def containsChar (s : String) (c : Char) : Bool :=
  s.data.contains c

/-- Split a character list at every character satisfying `p`, keeping empty
pieces (structural-recursion core of Python's `str.split(sep)`). -/
def splitPred (p : Char → Bool) : List Char → List (List Char)
  | [] => [[]]
  | c :: cs =>
    if p c then [] :: splitPred p cs
    else
      match splitPred p cs with
      | [] => [[c]]
      | q :: qs => (c :: q) :: qs

/-- Python's `value.split(sep)` for a one-character separator: pieces between
separator occurrences, empty pieces kept. -/
def pySplitOn (s : String) (sep : Char) : List String :=
  (splitPred (fun c => c == sep) s.data).map String.mk

/-- Python's `str.strip()` (as used by `int(...)`): drop leading and trailing
whitespace. -/
def pyTrim (s : String) : String :=
  String.mk (((s.data.dropWhile Char.isWhitespace).reverse.dropWhile
    Char.isWhitespace).reverse)

/-- Python's `str.split()` with no argument: split on whitespace runs,
discarding empty pieces. -/
def pySplit (s : String) : List String :=
  ((splitPred Char.isWhitespace s.data).filter (fun cs => !cs.isEmpty)).map String.mk

/-- Value of a nonempty all-digit character list, `none` otherwise. -/
def digitsVal? (cs : List Char) : Option Nat :=
  if cs.isEmpty then none
  else if cs.all Char.isDigit then
    some (cs.foldl (fun n c => 10 * n + (c.toNat - 48)) 0)
  else none

/-- Python's `int(str)`: strips whitespace, allows one leading sign, then
requires a nonempty digit run; raises `ValueError` otherwise. -/
def pyInt (s : String) : Except PyError Int :=
  match (pyTrim s).data with
  | '-' :: rest =>
    match digitsVal? rest with
    | some n => .ok (-(n : Int))
    | none => .error (.valueError s)
  | '+' :: rest =>
    match digitsVal? rest with
    | some n => .ok (n : Int)
    | none => .error (.valueError s)
  | cs =>
    match digitsVal? cs with
    | some n => .ok (n : Int)
    | none => .error (.valueError s)

/-- Python list indexing `l[i]`: negative indices count from the end,
out-of-range raises `IndexError`. -/
def pyIndex (l : List String) (i : Int) : Except PyError String :=
  let j : Int := if i < 0 then i + l.length else i
  if j < 0 then .error .indexError
  else
    match l.get? j.toNat with
    | some x => .ok x
    | none => .error .indexError

/-- Python truthiness of the optional `names_list` argument
(`if names_list:`): `None` and the empty list are falsy. -/
def truthy (names_list : Option (List String)) : Bool :=
  match names_list with
  | none => false
  | some l => !l.isEmpty

/-- The generator `names_list[int(v)] for v in valores if int(v) < len(names_list)`,
consumed left to right by `", ".join`. -/
def lookupNames (names_list : List String) : List String → Except PyError (List String)
  | [] => .ok []
  | v :: vs => do
    let i ← pyInt v
    if i < (names_list.length : Int) then
      let name ← pyIndex names_list i
      let rest ← lookupNames names_list vs
      return name :: rest
    else
      lookupNames names_list vs

/-- The `',' in value` branch of `_parse_field`. -/
def renderList (value type_name : String) (names_list : Option (List String)) :
    Except PyError String :=
  let valores := pySplitOn value ','
  if truthy names_list then do
    let names ← lookupNames (names_list.getD []) valores
    return "los " ++ String.intercalate ", " names
  else
    return type_name ++ "s: " ++ String.intercalate ", " valores

/-- The unpacking `inicio, fin = map(int, value.split('-'))`: the lazy `map`
is consumed element by element, so `int` is applied left to right and a
wrong part count raises `ValueError` only after the ints it consumed. -/
def unpack2Int (parts : List String) : Except PyError (Int × Int) :=
  match parts with
  | [a, b] => do
    let x ← pyInt a
    let y ← pyInt b
    return (x, y)
  | [a] => do
    let _ ← pyInt a
    .error (.valueError "not enough values to unpack")
  | a :: b :: c :: _ => do
    let _ ← pyInt a
    let _ ← pyInt b
    let _ ← pyInt c
    .error (.valueError "too many values to unpack")
  | [] => .error (.valueError "not enough values to unpack")

/-- The `'-' in value` branch of `_parse_field`: with a truthy name table the
parsed bounds index the table directly (no bounds check). -/
def renderRange (value type_name : String) (names_list : Option (List String)) :
    Except PyError String := do
  let (inicio, fin) ← unpack2Int (pySplitOn value '-')
  if truthy names_list then do
    let n1 ← pyIndex (names_list.getD []) inicio
    let n2 ← pyIndex (names_list.getD []) fin
    return "de " ++ n1 ++ " a " ++ n2
  else
    return type_name ++ "s del " ++ toString inicio ++ " al " ++ toString fin

/-- The `'/' in value` branch of `_parse_field`:
`_, intervalo = value.split('/')` demands exactly two parts and discards the
part before the separator; `intervalo` is never parsed as an integer. -/
def renderStep (value type_name : String) : Except PyError String :=
  match pySplitOn value '/' with
  | [_, intervalo] => .ok ("cada " ++ intervalo ++ " " ++ type_name ++ "s")
  | _ => .error (.valueError "values to unpack")

/-- `CronTranslator._parse_field`: classify the raw token by the if-chain
`== '*'`, `',' in`, `'-' in`, `'/' in`, else literal, and render. -/
def parse_field (value type_name : String) (names_list : Option (List String)) :
    Except PyError String :=
  if value = "*" then .ok ("cada " ++ type_name)
  else if containsChar value ',' then renderList value type_name names_list
  else if containsChar value '-' then renderRange value type_name names_list
  else if containsChar value '/' then renderStep value type_name
  else .ok value

/-- Errors surfaced by `translate`: the validator rejection
(`"Expresión cron inválida"`), the field-count failure
(`"Formato de expresión cron inválido."`), and uncaught field errors. -/
inductive TranslateError where
  | invalidSyntax (expression : String)
  | invalidFormat
  | fieldError (e : PyError)
deriving DecidableEq, Repr

deriving instance DecidableEq for Except

/-- `CronTranslator._validate_cron_expression`: asks the external collaborator
(abstracted as `croniterOk`) and normalizes any exception to `false`. -/
def validate_cron_expression (croniterOk : String → Bool) (expression : String) : Bool :=
  croniterOk expression

/-- The body of `translate` after the five-way unpack
`minute, hour, day_of_month, month, day_of_week = cron_expression.split()`:
a wrong field count raises the format `ValueError`. -/
def translateFields : List String → Except TranslateError String
  | [minute, hour, day_of_month, month, day_of_week] => do
    let t1 ← (parse_field minute "minuto" none).mapError .fieldError
    let t2 ← (parse_field hour "hora" none).mapError .fieldError
    let t3 ← (parse_field day_of_month "día del mes" none).mapError .fieldError
    let t4 ← (parse_field month "mes" (some MONTH_NAMES)).mapError .fieldError
    let t5 ← (parse_field day_of_week "día" (some DAY_NAMES)).mapError .fieldError
    return String.intercalate " " [t1, t2, t3, t4, t5]
  | _ => .error .invalidFormat

/-- `CronTranslator.translate`: validate first (delegating to the external
collaborator), then split into exactly five fields and render each. -/
def translate (croniterOk : String → Bool) (cron_expression : String) :
    Except TranslateError String :=
  if !validate_cron_expression croniterOk cron_expression then
    .error (.invalidSyntax cron_expression)
  else
    translateFields (pySplit cron_expression)

/-- `CronTranslator.get_next_executions`: the croniter construction and the
`count` `get_next` calls are abstracted as `compute` (timestamps as `Nat`);
any error is logged and swallowed, returning the empty list. -/
def get_next_executions (compute : String → Nat → Except String (List Nat))
    (cron_expression : String) (count : Nat) : List Nat :=
  match compute cron_expression count with
  | .ok result => result
  | .error _ => []

/-- Modelled from the spec: the external scheduling collaborator's parser
(behind the Schedule Validator) accepts exactly the syntactically valid
five-field cron expressions; in particular it rejects any string that does
not split into five whitespace-separated fields. Per-field grammar is not
needed by any claim and is left maximally permissive. -/
def croniter_accepts (expression : String) : Bool :=
  (pySplit expression).length == 5

/-- A validator that accepts every expression (used to instantiate the
abstract collaborator at concrete inputs). -/
def alwaysValid (_expression : String) : Bool :=
  true

/-- A collaborator that always fails (used to instantiate the abstract
collaborator at concrete inputs). -/
def alwaysFails (_expression : String) (_count : Nat) : Except String (List Nat) :=
  .error "Error calculando próximas ejecuciones"

/-- Name-table lookup at an in-range position (total wrapper used to state
theorems about in-range indexing). -/
def getName (l : List String) (n : Nat) : String :=
  l.getD n ""

/-- The display names of the in-range indices of `is`, in order. -/
def inRangeNames (l : List String) (is : List Nat) : List String :=
  (is.filter (fun n => n < l.length)).map (getName l)

/-! ### Helper lemmas -/

lemma ne_star (value : String) (c : Char) (hstar : containsChar "*" c = false)
    (h : containsChar value c = true) : value ≠ "*" := by
  intro he
  rw [he, hstar] at h
  exact Bool.noConfusion h

lemma parse_field_wildcard (type_name : String) (names_list : Option (List String)) :
    parse_field "*" type_name names_list = .ok ("cada " ++ type_name) := rfl

lemma parse_field_list (value type_name : String) (names_list : Option (List String))
    (h : containsChar value ',' = true) :
    parse_field value type_name names_list = renderList value type_name names_list := by
  unfold parse_field
  rw [if_neg (ne_star value ',' (by decide) h), if_pos h]

lemma parse_field_range (value type_name : String) (names_list : Option (List String))
    (h1 : containsChar value ',' = false) (h2 : containsChar value '-' = true) :
    parse_field value type_name names_list = renderRange value type_name names_list := by
  unfold parse_field
  rw [if_neg (ne_star value '-' (by decide) h2), if_neg (by simp [h1]), if_pos h2]

lemma parse_field_step (value type_name : String) (names_list : Option (List String))
    (h1 : containsChar value ',' = false) (h2 : containsChar value '-' = false)
    (h3 : containsChar value '/' = true) :
    parse_field value type_name names_list = renderStep value type_name := by
  unfold parse_field
  rw [if_neg (ne_star value '/' (by decide) h3), if_neg (by simp [h1]),
    if_neg (by simp [h2]), if_pos h3]

lemma parse_field_literal (value type_name : String) (names_list : Option (List String))
    (hne : value ≠ "*") (h1 : containsChar value ',' = false)
    (h2 : containsChar value '-' = false) (h3 : containsChar value '/' = false) :
    parse_field value type_name names_list = .ok value := by
  unfold parse_field
  rw [if_neg hne, if_neg (by simp [h1]), if_neg (by simp [h2]), if_neg (by simp [h3])]

lemma truthy_some (l : List String) (hl : l ≠ []) : truthy (some l) = true := by
  cases l with
  | nil => exact absurd rfl hl
  | cons a t => rfl

lemma pyIndex_nat (l : List String) (n : Nat) (h : n < l.length) :
    pyIndex l (n : Int) = .ok (getName l n) := by
  have h0 : ¬ ((n : Int) < 0) := by omega
  have hg : l.get? n = some (getName l n) := by
    rw [List.get?_eq_getElem?, List.getElem?_eq_getElem h, getName,
      List.getD_eq_getElem l "" h]
  simp only [pyIndex, if_neg h0, Int.toNat_natCast, hg]

lemma unpack2Int_ok (sa sb : String) (x y : Int)
    (ha : pyInt sa = .ok x) (hb : pyInt sb = .ok y) :
    unpack2Int [sa, sb] = .ok (x, y) := by
  simp only [unpack2Int, ha, hb]
  rfl

lemma inRangeNames_cons_in (l : List String) (n : Nat) (ns : List Nat)
    (h : n < l.length) :
    inRangeNames l (n :: ns) = getName l n :: inRangeNames l ns := by
  unfold inRangeNames
  rw [List.filter_cons, if_pos (by simpa using h), List.map_cons]

lemma inRangeNames_cons_out (l : List String) (n : Nat) (ns : List Nat)
    (h : ¬ n < l.length) :
    inRangeNames l (n :: ns) = inRangeNames l ns := by
  unfold inRangeNames
  rw [List.filter_cons, if_neg (by simpa using h)]

lemma lookupNames_ok (l : List String) :
    ∀ (vs : List String) (is : List Nat),
      vs.map pyInt = is.map (fun (n : Nat) => (Except.ok (n : Int) : Except PyError Int)) →
      lookupNames l vs = .ok (inRangeNames l is) := by
  intro vs
  induction vs with
  | nil =>
    intro is h
    cases is with
    | nil => rfl
    | cons n ns => simp at h
  | cons v vs ih =>
    intro is h
    cases is with
    | nil => simp at h
    | cons n ns =>
      rw [List.map_cons, List.map_cons] at h
      injection h with hv hrest
      unfold lookupNames
      rw [hv]
      by_cases hlt : n < l.length
      · have hlt2 : (n : Int) < (l.length : Int) := by omega
        show (if (n : Int) < (l.length : Int) then _ else _ : Except PyError (List String)) = _
        rw [if_pos hlt2]
        show Except.bind (pyIndex l (n : Int)) _ = _
        rw [pyIndex_nat l n hlt]
        show Except.bind (lookupNames l vs) _ = _
        rw [ih ns hrest, inRangeNames_cons_in l n ns hlt]
        rfl
      · have hlt2 : ¬ ((n : Int) < (l.length : Int)) := by omega
        show (if (n : Int) < (l.length : Int) then _ else _ : Except PyError (List String)) = _
        rw [if_neg hlt2, ih ns hrest, inRangeNames_cons_out l n ns hlt]

/-! ### Claim theorems -/

/-- C7: classification of a field token is mutually exclusive and follows the
fixed precedence Wildcard, List, Range, Step, Literal: exactly one renderer
runs for every token; a token containing `,` is rendered as List even if it
also contains `-` or `/`, and a token containing `-` but no `,` is rendered
as Range even if it also contains `/`. -/
theorem classification_precedence :
    (∀ type_name names_list,
      parse_field "*" type_name names_list = .ok ("cada " ++ type_name))
    ∧ (∀ value type_name names_list, containsChar value ',' = true →
        parse_field value type_name names_list = renderList value type_name names_list)
    ∧ (∀ value type_name names_list, containsChar value ',' = false →
        containsChar value '-' = true →
        parse_field value type_name names_list = renderRange value type_name names_list)
    ∧ (∀ value type_name names_list, containsChar value ',' = false →
        containsChar value '-' = false → containsChar value '/' = true →
        parse_field value type_name names_list = renderStep value type_name)
    ∧ (∀ value type_name names_list, value ≠ "*" → containsChar value ',' = false →
        containsChar value '-' = false → containsChar value '/' = false →
        parse_field value type_name names_list = .ok value) :=
  ⟨parse_field_wildcard, parse_field_list, parse_field_range, parse_field_step,
    parse_field_literal⟩

/-- Witness for C7: the token `1,2-3/4` contains all three separators and is
rendered by the List renderer; `1-2/3` contains `-` and `/` but no `,` and is
rendered by the Range renderer. -/
theorem classification_precedence_witness :
    (parse_field "1,2-3/4" "minuto" none = renderList "1,2-3/4" "minuto" none
      ∧ renderList "1,2-3/4" "minuto" none = .ok "minutos: 1, 2-3/4")
    ∧ (parse_field "1-2/3" "hora" none = renderRange "1-2/3" "hora" none
      ∧ (renderRange "1-2/3" "hora" none).isOk = false) :=
  ⟨⟨classification_precedence.2.1 "1,2-3/4" "minuto" none (by decide), by decide⟩,
    ⟨classification_precedence.2.2.1 "1-2/3" "hora" none (by decide) (by decide),
      by decide⟩⟩

/-- C6: a Step token's rendering extracts exactly the substring after the `/`
separator and embeds it verbatim into "cada N {noun}s"; the base portion
before the `/` is discarded, whatever it is. -/
theorem step_renders_interval (value type_name base intervalo : String)
    (names_list : Option (List String))
    (h1 : containsChar value ',' = false) (h2 : containsChar value '-' = false)
    (h3 : containsChar value '/' = true)
    (hsplit : pySplitOn value '/' = [base, intervalo]) :
    parse_field value type_name names_list =
      .ok ("cada " ++ intervalo ++ " " ++ type_name ++ "s") := by
  rw [parse_field_step value type_name names_list h1 h2 h3]
  unfold renderStep
  rw [hsplit]

/-- Witness for C6: `*/5` on the minute field renders as "cada 5 minutos". -/
theorem step_renders_interval_witness :
    parse_field "*/5" "minuto" none = .ok "cada 5 minutos" :=
  step_renders_interval "*/5" "minuto" "*" "5" none (by decide) (by decide)
    (by decide) (by decide)

/-- C10 (implicit): the Step renderer never consults the name table, even when
one is supplied, and pluralization naively appends `s` to the whole display
noun: the month token `*/2` renders as "cada 2 mess" and the day-of-month
token `*/2` renders as "cada 2 día del mess". -/
theorem step_ignores_name_table :
    (∀ value type_name t1 t2, containsChar value ',' = false →
      containsChar value '-' = false → containsChar value '/' = true →
      parse_field value type_name t1 = parse_field value type_name t2)
    ∧ parse_field "*/2" "mes" (some MONTH_NAMES) = .ok "cada 2 mess"
    ∧ parse_field "*/2" "día del mes" none = .ok "cada 2 día del mess" := by
  refine ⟨?_, by decide, by decide⟩
  intro value type_name t1 t2 h1 h2 h3
  rw [parse_field_step value type_name t1 h1 h2 h3,
    parse_field_step value type_name t2 h1 h2 h3]

/-- Witness for C10: on the month step token `*/2`, supplying the month name
table changes nothing. -/
theorem step_ignores_name_table_witness :
    parse_field "*/2" "mes" (some MONTH_NAMES) = parse_field "*/2" "mes" none :=
  step_ignores_name_table.1 "*/2" "mes" (some MONTH_NAMES) none (by decide)
    (by decide) (by decide)

/-- C4: a Range token `a-b` on a field with a (truthy) name table renders as
"de {name[a]} a {name[b]}", indexing the table directly with the parsed
integers; there is no bounds check, so an out-of-range bound such as the month
token `5-12` raises `IndexError` instead of being dropped. -/
theorem range_with_table_direct_index :
    (∀ (value type_name sa sb : String) (l : List String) (a b : Nat),
      containsChar value ',' = false →
      containsChar value '-' = true →
      pySplitOn value '-' = [sa, sb] →
      pyInt sa = .ok (a : Int) →
      pyInt sb = .ok (b : Int) →
      l ≠ [] → a < l.length → b < l.length →
      parse_field value type_name (some l) =
        .ok ("de " ++ getName l a ++ " a " ++ getName l b))
    ∧ parse_field "5-12" "mes" (some MONTH_NAMES) = .error .indexError := by
  refine ⟨?_, by decide⟩
  intro value type_name sa sb l a b h1 h2 hsplit ha hb hl hal hbl
  rw [parse_field_range value type_name (some l) h1 h2]
  unfold renderRange
  rw [hsplit, unpack2Int_ok sa sb a b ha hb]
  show (if truthy (some l) = true then _ else _ : Except PyError String) = _
  rw [truthy_some l hl, if_pos rfl]
  show Except.bind (pyIndex l a) _ = _
  rw [pyIndex_nat l a hal]
  show Except.bind (pyIndex l b) _ = _
  rw [pyIndex_nat l b hbl]
  rfl

/-- Witness for C4: the month token `1-5` renders as "de febrero a junio"
against the zero-indexed month table starting at enero. -/
theorem range_with_table_direct_index_witness :
    parse_field "1-5" "mes" (some MONTH_NAMES) = .ok "de febrero a junio" :=
  range_with_table_direct_index.1 "1-5" "mes" "1" "5" MONTH_NAMES 1 5 (by decide)
    (by decide) (by decide) (by decide) (by decide) (by decide) (by decide) (by decide)

/-- C9: `get_next_executions` never propagates a failure of the external
scheduling collaborator (abstracted as `compute`): any error is swallowed and
the empty sequence is returned. -/
theorem get_next_executions_error_empty
    (compute : String → Nat → Except String (List Nat))
    (cron_expression : String) (count : Nat) (e : String)
    (h : compute cron_expression count = .error e) :
    get_next_executions compute cron_expression count = [] := by
  unfold get_next_executions
  rw [h]

/-- Witness for C9: a collaborator that fails on the query yields the empty
list of execution times. -/
theorem get_next_executions_error_empty_witness :
    get_next_executions alwaysFails "not a cron expression" 5 = [] :=
  get_next_executions_error_empty alwaysFails "not a cron expression" 5
    "Error calculando próximas ejecuciones" rfl

/-- Counterexample to C3 as stated: on the weekday List token `1,-1` the
parsed index -1 lies outside [0, 7) yet is not excluded — Python negative
indexing makes it contribute "sábado" — and on `-8,1` the parsed index -8
(also outside [0, 7)) crashes the renderer with `IndexError`. -/
theorem list_negative_index_not_dropped :
    parse_field "1,-1" "día" (some DAY_NAMES) = .ok "los lunes, sábado"
    ∧ parse_field "1,-1" "día" (some DAY_NAMES) ≠ .ok "los lunes"
    ∧ (parse_field "-8,1" "día" (some DAY_NAMES)).isOk = false :=
  ⟨by decide, by decide, by decide⟩

/-- C3 (amended): for a List token with a (truthy) name table whose sub-tokens
all parse as nonnegative integers, every parsed index `≥` table length is
silently dropped and every index in [0, length) appears translated via the
table, prefixed with "los " and joined with ", ". -/
theorem list_with_table_in_range (value type_name : String) (l : List String)
    (is : List Nat)
    (hcomma : containsChar value ',' = true)
    (hl : l ≠ [])
    (hp : (pySplitOn value ',').map pyInt
        = is.map (fun (n : Nat) => (Except.ok (n : Int) : Except PyError Int))) :
    parse_field value type_name (some l) =
      .ok ("los " ++ String.intercalate ", " (inRangeNames l is)) := by
  rw [parse_field_list value type_name (some l) hcomma]
  unfold renderList
  show (if truthy (some l) = true then _ else _ : Except PyError String) = _
  rw [truthy_some l hl, if_pos rfl]
  show Except.bind (lookupNames l (pySplitOn value ',')) _ = _
  rw [lookupNames_ok l (pySplitOn value ',') is hp]
  rfl

/-- Witness for C3 (amended): the weekday token `1,3,5` renders as
"los lunes, miércoles, viernes", and `1,8,3` drops the out-of-range 8. -/
theorem list_with_table_in_range_witness :
    parse_field "1,3,5" "día" (some DAY_NAMES) = .ok "los lunes, miércoles, viernes"
    ∧ parse_field "1,8,3" "día" (some DAY_NAMES) = .ok "los lunes, miércoles" :=
  ⟨(list_with_table_in_range "1,3,5" "día" DAY_NAMES [1, 3, 5] (by decide) (by decide)
      (by decide)).trans (by decide),
   (list_with_table_in_range "1,8,3" "día" DAY_NAMES [1, 8, 3] (by decide) (by decide)
      (by decide)).trans (by decide)⟩

/-- Counterexample to C1 as stated: the Range token `a-b`, whose sub-parts are
not parseable as integers, makes the renderer fail (`ValueError` from
`int('a')`) instead of producing a phrase. -/
theorem parse_field_can_fail :
    (parse_field "a-b" "minuto" none).isOk = false := by decide

/-- C1 (amended): the renderer always produces a phrase on Wildcard tokens,
Literal tokens, List tokens without a name table, and Step tokens with a
single `/`; it is on List-with-table/Range/Step forms with malformed numeric
sub-parts, out-of-range Range indices, or extra separators that it raises. -/
theorem parse_field_total_cases :
    (∀ type_name names_list, (parse_field "*" type_name names_list).isOk = true)
    ∧ (∀ value type_name names_list, value ≠ "*" → containsChar value ',' = false →
        containsChar value '-' = false → containsChar value '/' = false →
        (parse_field value type_name names_list).isOk = true)
    ∧ (∀ value type_name, containsChar value ',' = true →
        (parse_field value type_name none).isOk = true)
    ∧ (∀ value type_name names_list base intervalo,
        containsChar value ',' = false → containsChar value '-' = false →
        containsChar value '/' = true → pySplitOn value '/' = [base, intervalo] →
        (parse_field value type_name names_list).isOk = true) := by
  refine ⟨?_, ?_, ?_, ?_⟩
  · intro type_name names_list
    rw [parse_field_wildcard]
    rfl
  · intro value type_name names_list hne h1 h2 h3
    rw [parse_field_literal value type_name names_list hne h1 h2 h3]
    rfl
  · intro value type_name h
    rw [parse_field_list value type_name none h]
    unfold renderList
    show (Except.isOk (if truthy none = true then _ else _)) = true
    rw [if_neg (by decide)]
    rfl
  · intro value type_name names_list base intervalo h1 h2 h3 hsplit
    rw [parse_field_step value type_name names_list h1 h2 h3]
    unfold renderStep
    rw [hsplit]
    rfl

/-- Witness for C1 (amended): concrete tokens for each total form. -/
theorem parse_field_total_cases_witness :
    (parse_field "*" "hora" none).isOk = true
    ∧ (parse_field "15" "día del mes" none).isOk = true
    ∧ (parse_field "a,b" "hora" none).isOk = true
    ∧ (parse_field "*/x" "minuto" (some DAY_NAMES)).isOk = true :=
  ⟨parse_field_total_cases.1 "hora" none,
   parse_field_total_cases.2.1 "15" "día del mes" none (by decide) (by decide)
     (by decide) (by decide),
   parse_field_total_cases.2.2.1 "a,b" "hora" (by decide),
   parse_field_total_cases.2.2.2 "*/x" "minuto" (some DAY_NAMES) "*" "x" (by decide)
     (by decide) (by decide) (by decide)⟩

lemma translateFields_not5 (l : List String) (h : l.length ≠ 5) :
    translateFields l = .error .invalidFormat :=
  match l, h with
  | [], _ => rfl
  | [_], _ => rfl
  | [_, _], _ => rfl
  | [_, _, _], _ => rfl
  | [_, _, _, _], _ => rfl
  | [_, _, _, _, _], h => absurd rfl h
  | _ :: _ :: _ :: _ :: _ :: _ :: _, _ => rfl

/-- Counterexample to C2 as stated: with the five-field validator modelled
from the spec, the four-field expression `* * * *` fails validation first and
`translate` raises the syntax error, not the format error. -/
theorem translate_four_fields_syntax_error :
    translate croniter_accepts "* * * *" = .error (.invalidSyntax "* * * *")
    ∧ (Except.error (TranslateError.invalidSyntax "* * * *")
        : Except TranslateError String) ≠ .error .invalidFormat :=
  ⟨by decide, by decide⟩

/-- C2 (amended): when the validator accepts the expression but it does not
split into exactly five whitespace-separated fields, `translate` fails with
the format error (distinct from the syntax error) and produces no partial
output; when the validator rejects it, the syntax error is raised first. -/
theorem translate_format_error (valid : String → Bool) (expr : String)
    (hv : valid expr = true) (h5 : (pySplit expr).length ≠ 5) :
    translate valid expr = .error .invalidFormat := by
  unfold translate validate_cron_expression
  rw [hv]
  show translateFields (pySplit expr) = _
  exact translateFields_not5 (pySplit expr) h5

/-- Witness for C2 (amended): a validator that accepts everything lets the
four-field `* * * *` reach the field-count check and fail with the format
error. -/
theorem translate_format_error_witness :
    translate alwaysValid "* * * *" = .error .invalidFormat :=
  translate_format_error alwaysValid "* * * *" rfl (by decide)

/-- C5: `translate` on `30 3 15 * *` (accepted by the validator) yields the
five clauses "30", "3", "15" (Literal, raw token, no noun prefix),
"cada mes", "cada día", joined with single spaces in fixed field order. -/
theorem translate_concrete_30_3_15 (valid : String → Bool)
    (hv : valid "30 3 15 * *" = true) :
    translate valid "30 3 15 * *" = .ok "30 3 15 cada mes cada día" := by
  unfold translate validate_cron_expression
  rw [hv]
  show translateFields (pySplit "30 3 15 * *") = _
  decide

/-- Witness for C5: the always-accepting validator instantiation. -/
theorem translate_concrete_30_3_15_witness :
    translate alwaysValid "30 3 15 * *" = .ok "30 3 15 cada mes cada día" :=
  translate_concrete_30_3_15 alwaysValid rfl

/-- C8: every accepted expression whose five fields are all `*` translates to
exactly "cada minuto cada hora cada día del mes cada mes cada día". -/
theorem translate_all_wildcards (valid : String → Bool) (expr : String)
    (hv : valid expr = true)
    (hs : pySplit expr = ["*", "*", "*", "*", "*"]) :
    translate valid expr =
      .ok "cada minuto cada hora cada día del mes cada mes cada día" := by
  unfold translate validate_cron_expression
  rw [hv]
  show translateFields (pySplit expr) = _
  rw [hs]
  decide

/-- Witness for C8: the expression `* * * * *` with the always-accepting
validator. -/
theorem translate_all_wildcards_witness :
    translate alwaysValid "* * * * *" =
      .ok "cada minuto cada hora cada día del mes cada mes cada día" :=
  translate_all_wildcards alwaysValid "* * * * *" rfl (by decide)

end TraductorCron
